import Mathlib

/-!
Shallow embedding of the order-lifecycle / stock-reservation saga of the
go-meituan-microservice repository, together with theorems settling the
frozen claims about it.

Modelling conventions:
* Go `int64`/`int32` values are modelled as `Int`; all stock and id values
  appearing in the modelled runs stay far inside the 32/64-bit ranges, so no
  wrap-around arithmetic occurs in any modelled operation (the only arithmetic
  is `stock ± quantity` and counter increments).
* Go `float64` money fields (`Price`, `TotalAmount`, …) are modelled as `Rat`:
  the embedded code only copies these values and compares them with zero, it
  never performs rounding-sensitive float arithmetic.
* A MySQL table is a `List` of rows; GORM's `First(... Where pk = ?)` is
  `List.find?`, and a GORM `Updates`/`Update` with a `WHERE` clause is
  `updateRows`, which also returns the number of matched rows (the model of
  `RowsAffected`).
* gRPC hops are modelled as transparent calls: a client call returns the remote
  service function's result.  (The Go handlers actually encode application
  errors in-band in `CommonResponse.Code` with a `nil` transport error; the
  transparent model is the charitable reading under which a remote business
  failure is visible to the caller at all.)
* `zap` logging, timestamps and `context.Context` carry no modelled state and
  are dropped.  Wall-clock strings (`time.Now().Format(...)`) and the
  `BeforeCreate` order-number (`date + uuid`) are nondeterministic inputs and
  are passed as explicit parameters.  A possible failure of the order-insert
  transaction (step 5 of CreateOrder) is injected through the explicit
  `persistFails` flag; all other DB statements are modelled as succeeding.
* GORM hook semantics: a struct-based `Save` runs the model's `BeforeUpdate`
  hook on the full row and writes every column; a column/map-based
  `Update`/`Updates` writes only the named columns (direct struct-field writes
  made by a hook are not added to such a statement).
* `validator.v10` struct validation is modelled declaratively as the
  conjunction of the constraints the tags state (`gt=0`, `min=n`, the phone
  regular expression); slice elements carry no `dive` tag in the source, so
  item-level tags inside `CreateOrderParam.Items` are not checked, exactly as
  in the Go validator.  Validation error messages embed dynamic detail in Go;
  the model keeps the fixed prefix.
-/

set_option linter.unusedVariables false

namespace Meituan

/-! pkg/utils/error.go -/

structure AppError where
  code : Nat
  message : String
deriving Repr, DecidableEq

def ErrCodeParam : Nat := 10001

def ErrCodeAuth : Nat := 10002

def ErrCodeDB : Nat := 10003

def ErrCodeBiz : Nat := 10004

def ErrCodeSystem : Nat := 99999

def NewAppError (code : Nat) (message : String) : AppError :=
  ⟨code, message⟩

def NewParamError (message : String) : AppError :=
  NewAppError ErrCodeParam message

def NewDBError (message : String) : AppError :=
  NewAppError ErrCodeDB message

def NewBizError (message : String) : AppError :=
  NewAppError ErrCodeBiz message

def NewSystemError (message : String) : AppError :=
  NewAppError ErrCodeSystem message

/-- Generic model of a GORM `Updates` with a `WHERE` clause: every row
satisfying `pred` is replaced by `f row`; the second component is the number
of matched rows (`RowsAffected`). -/
def updateRows {α : Type} (pred : α → Bool) (f : α → α) : List α → List α × Nat
  | [] => ([], 0)
  | r :: rs =>
    let t := updateRows pred f rs
    if pred r then (f r :: t.1, t.2 + 1) else (r :: t.1, t.2)

/-- The `^1[3-9]\d{9}$` phone check declared by the validator tags. -/
def phoneValid (s : String) : Bool :=
  match s.data with
  | c :: d :: rest =>
    c == '1' && ('3' ≤ d && d ≤ '9') && d.isDigit && rest.all (fun x => x.isDigit)
      && rest.length == 9
  | _ => false

/-! internal/product/repo/model (src/unnamed/part_006): the Product row.
Columns never read by the modelled logic (description, price, image url,
timestamps, soft-delete marker) are omitted. -/

structure Product where
  productID : Int
  merchantID : Int
  name : String
  stock : Int
  isSoldOut : Bool
deriving Repr, DecidableEq

/-- BeforeUpdate hook of the Product model (part_006 lines 29-38): on a
struct-based update, recompute the sold-out flag from the stock count. -/
def productBeforeUpdate (p : Product) : Product :=
  if p.stock ≤ 0 then { p with isSoldOut := true } else { p with isSoldOut := false }

/-- The `WHERE product_id = ?` condition. -/
def productIDPred (pid : Int) : Product → Bool :=
  fun p => p.productID == pid

/-- GORM `Where("product_id = ?", pid).First(&product)`. -/
def findProduct (db : List Product) (pid : Int) : Option Product :=
  db.find? (productIDPred pid)

/-- The column update `stock = stock + ?` of RestoreStock. -/
def restoreUpd (num : Int) : Product → Product :=
  fun p => { p with stock := p.stock + num }

/-- productRepo.DeductStock (src/unnamed/part_007 lines 108-141): load the row
under an exclusive lock, fail `商品不存在` when absent, fail `库存不足` when
`stock < num`, otherwise decrement and `Save` the full struct, which runs the
`BeforeUpdate` hook.  The surrounding transaction makes the read-modify-write
one atomic step of the model. -/
def DeductStock (db : List Product) (productID num : Int) :
    Except AppError (List Product) :=
  match findProduct db productID with
  | none => .error (NewBizError "商品不存在")
  | some product =>
    if product.stock < num then
      .error (NewBizError "库存不足")
    else
      .ok (updateRows (productIDPred productID)
        (fun _ => productBeforeUpdate { product with stock := product.stock - num })
        db).1

/-- productRepo.RestoreStock (src/unnamed/part_007 lines 143-153): a single
column update `stock = stock + ?`; only the stock column is written (a
column update does not pick up the `BeforeUpdate` hook's struct-field
writes), and `RowsAffected == 0` yields `商品不存在`. -/
def RestoreStock (db : List Product) (productID num : Int) :
    Except AppError (List Product) :=
  if (updateRows (productIDPred productID) (restoreUpd num) db).2 == 0 then
    .error (NewBizError "商品不存在")
  else
    .ok (updateRows (productIDPred productID) (restoreUpd num) db).1

/-- Invariant of claim C4: no stock count in the table is negative. -/
def allStocksNonneg (db : List Product) : Prop :=
  ∀ p ∈ db, 0 ≤ p.stock

/-- productService.DeductStock (internal/product/service/product_service.go
lines 212-222): validate `ProductID gt=0`, `Num gt=0`, then call the repo. -/
def svcDeductStock (db : List Product) (pid num : Int) :
    Except AppError (List Product) :=
  if decide (0 < pid) && decide (0 < num) then DeductStock db pid num
  else .error (NewParamError "删减库存参数校验失败")

/-- productService.RestoreStock (product_service.go lines 224-234). -/
def svcRestoreStock (db : List Product) (pid num : Int) :
    Except AppError (List Product) :=
  if decide (0 < pid) && decide (0 < num) then RestoreStock db pid num
  else .error (NewParamError "增加库存参数校验失败")

/-! internal/order/repo/model (src/unnamed/part_004 and
internal/order/repo/model/order_item.go): order header and line rows.
Timestamps and the soft-delete marker are omitted. -/

structure Order where
  orderID : Int
  orderNo : String
  userID : Int
  userName : String
  userPhone : String
  merchantID : Int
  merchantName : String
  totalAmount : Rat
  status : String
  address : String
  expectDeliveryTime : String
  remark : String
deriving Repr, DecidableEq

structure OrderItem where
  itemID : Int
  orderID : Int
  productID : Int
  productName : String
  price : Rat
  quantity : Int
  totalPrice : Rat
deriving Repr, DecidableEq

/-- The order service's two tables plus the auto-increment counters. -/
structure OrderDB where
  orders : List Order
  orderItems : List OrderItem
  nextOrderID : Int
  nextItemID : Int
deriving Repr, DecidableEq

/-- The `WHERE order_id = ?` condition. -/
def orderIDPred (orderID : Int) : Order → Bool :=
  fun o => o.orderID == orderID

def findOrder (odb : OrderDB) (orderID : Int) : Option Order :=
  odb.orders.find? (orderIDPred orderID)

/-- orderRepo.GetOrderByID (src/unnamed/part_005 lines 150-162). -/
def repoGetOrderByID (odb : OrderDB) (orderID : Int) : Except AppError Order :=
  match findOrder odb orderID with
  | none => .error (NewBizError "订单不存在")
  | some o => .ok o

/-- orderRepo.GetOrderItems (part_005 lines 182-190). -/
def repoGetOrderItems (odb : OrderDB) (orderID : Int) : List OrderItem :=
  odb.orderItems.filter (fun it => it.orderID == orderID)

/-- orderRepo.UpdateOrderStatus (part_005 lines 68-88): an unconditional
`WHERE order_id = ?` update of the status (and the remark when non-empty);
`RowsAffected == 0` yields `订单不存在`.  No transition check appears. -/
def statusUpd (status remark : String) : Order → Order :=
  fun o =>
    if remark != "" then { o with status := status, remark := remark }
    else { o with status := status }

def repoUpdateOrderStatus (odb : OrderDB) (orderID : Int) (status remark : String) :
    Except AppError OrderDB :=
  if (updateRows (orderIDPred orderID) (statusUpd status remark) odb.orders).2 == 0 then
    .error (NewBizError "订单不存在")
  else
    .ok { odb with
      orders := (updateRows (orderIDPred orderID) (statusUpd status remark) odb.orders).1 }

/-- orderRepo.CancelOrder (part_005 lines 164-180): update
`WHERE order_id = ? AND user_id = ?` to status `已取消` with the reason as
remark; `RowsAffected == 0` yields `订单不存在或无权限取消`. -/
def cancelPred (orderID userID : Int) : Order → Bool :=
  fun o => o.orderID == orderID && o.userID == userID

def cancelUpd (reason : String) : Order → Order :=
  fun o => { o with status := "已取消", remark := reason }

def repoCancelOrder (odb : OrderDB) (orderID userID : Int) (reason : String) :
    Except AppError OrderDB :=
  if (updateRows (cancelPred orderID userID) (cancelUpd reason) odb.orders).2 == 0 then
    .error (NewBizError "订单不存在或无权限取消")
  else
    .ok { odb with
      orders := (updateRows (cancelPred orderID userID) (cancelUpd reason) odb.orders).1 }

/-- Insertion of the line items of one order: each row gets the owning order
id and the next auto-increment item id. -/
def insertOrderItems (oid : Int) (nextID : Int) :
    List OrderItem → List OrderItem × Int
  | [] => ([], nextID)
  | it :: rest =>
    let t := insertOrderItems oid (nextID + 1) rest
    ({ it with itemID := nextID, orderID := oid } :: t.1, t.2)

/-- orderRepo.CreateOrder (part_005 lines 33-66): one transaction inserting
the header (auto id; the `BeforeCreate` hook sets the order number, passed
here as the explicit `generatedOrderNo`) and its items. -/
def repoCreateOrder (odb : OrderDB) (order : Order) (items : List OrderItem)
    (generatedOrderNo : String) : OrderDB × Order :=
  ({ orders := odb.orders ++
        [{ order with orderID := odb.nextOrderID, orderNo := generatedOrderNo }],
     orderItems := odb.orderItems ++
        (insertOrderItems odb.nextOrderID odb.nextItemID items).1,
     nextOrderID := odb.nextOrderID + 1,
     nextItemID := (insertOrderItems odb.nextOrderID odb.nextItemID items).2 },
   { order with orderID := odb.nextOrderID, orderNo := generatedOrderNo })

/-! internal/order/service/order_service.go: parameters and their declared
validator tags. -/

structure OrderItemParam where
  productID : Int
  productName : String
  price : Rat
  quantity : Int
  totalPrice : Rat
deriving Repr, DecidableEq

structure CreateOrderParam where
  userID : Int
  userName : String
  userPhone : String
  merchantID : Int
  items : List OrderItemParam
  totalAmount : Rat
  address : String
  expectDeliveryTime : String
deriving Repr, DecidableEq

/-- Tags of `CreateOrderParam`; `Items` carries no `dive`, so the fields of
the individual items are not validated here. -/
def createOrderParamValid (p : CreateOrderParam) : Bool :=
  decide (0 < p.userID) && decide (2 ≤ p.userName.length) && phoneValid p.userPhone
    && decide (0 < p.merchantID) && decide (1 ≤ p.items.length)
    && decide (0 < p.totalAmount) && decide (5 ≤ p.address.length)

structure UpdateOrderStatusParam where
  orderID : Int
  status : String
  operator : String
  remark : String
deriving Repr, DecidableEq

def updateOrderStatusParamValid (p : UpdateOrderStatusParam) : Bool :=
  decide (0 < p.orderID) && decide (2 ≤ p.status.length)
    && decide (2 ≤ p.operator.length)

structure CancelOrderParam where
  orderID : Int
  userID : Int
  reason : String
deriving Repr, DecidableEq

def cancelOrderParamValid (p : CancelOrderParam) : Bool :=
  decide (0 < p.orderID) && decide (0 < p.userID) && decide (2 ≤ p.reason.length)

structure CreateOrderResult where
  orderID : Int
  orderNo : String
deriving Repr, DecidableEq

/-- Step 2 of CreateOrder (order_service.go lines 136-147): sequential
per-line deductions through the product service; the loop stops at the first
failing line and reports it.  Lines after the failing one are not attempted;
lines before it keep their deduction. -/
def deductLoop (db : List Product) :
    List OrderItemParam → List Product × Option OrderItemParam
  | [] => (db, none)
  | it :: rest =>
    match svcDeductStock db it.productID it.quantity with
    | .error _ => (db, some it)
    | .ok db' => deductLoop db' rest

/-- Step 5's compensation loop (order_service.go lines 177-183): a
best-effort RestoreStock call per requested line, errors ignored.  The second
component records every RestoreStock RPC issued, as `(productID, num)`. -/
def restoreParamLoop (db : List Product) :
    List OrderItemParam → List Product × List (Int × Int)
  | [] => (db, [])
  | it :: rest =>
    let db₁ := match svcRestoreStock db it.productID it.quantity with
      | .error _ => db
      | .ok db' => db'
    let t := restoreParamLoop db₁ rest
    (t.1, (it.productID, it.quantity) :: t.2)

/-- CancelOrder's restore loop (order_service.go lines 432-438), over the
stored line items, errors ignored; the trace layout matches
`restoreParamLoop`. -/
def restoreItemsLoop (db : List Product) :
    List OrderItem → List Product × List (Int × Int)
  | [] => (db, [])
  | it :: rest =>
    let db₁ := match svcRestoreStock db it.productID it.quantity with
      | .error _ => db
      | .ok db' => db'
    let t := restoreItemsLoop db₁ rest
    (t.1, (it.productID, it.quantity) :: t.2)

instance exceptDecEq {ε α : Type} [DecidableEq ε] [DecidableEq α] :
    DecidableEq (Except ε α) := fun a b =>
  match a, b with
  | .error e₁, .error e₂ =>
    if h : e₁ = e₂ then .isTrue (by subst h; rfl)
    else .isFalse (by intro hc; injection hc; contradiction)
  | .error _, .ok _ => .isFalse (by intro hc; injection hc)
  | .ok _, .error _ => .isFalse (by intro hc; injection hc)
  | .ok v₁, .ok v₂ =>
    if h : v₁ = v₂ then .isTrue (by subst h; rfl)
    else .isFalse (by intro hc; injection hc; contradiction)

/-- Observable outcome of one CreateOrder call: the returned value, the final
product table, the final order store, and the RestoreStock RPCs issued. -/
structure CreateOrderOutcome where
  result : Except AppError CreateOrderResult
  products : List Product
  orderDB : OrderDB
  restoreCalls : List (Int × Int)
deriving Repr, DecidableEq

/-- orderService.CreateOrder (order_service.go lines 128-196).  On a failed
deduction the code logs and returns the wrapped business error directly
(line 144: `库存不足/商品不存在，直接返回`); the only compensation loop sits
on the persistence-failure path of step 5. -/
def CreateOrder (products : List Product) (odb : OrderDB)
    (param : CreateOrderParam) (generatedOrderNo : String)
    (persistFails : Bool) : CreateOrderOutcome :=
  if createOrderParamValid param then
    match deductLoop products param.items with
    | (products₁, some failedItem) =>
      ⟨.error (NewBizError ("商品库存不足或不存在：" ++ failedItem.productName)),
        products₁, odb, []⟩
    | (products₁, none) =>
      let order : Order :=
        { orderID := 0, orderNo := "", userID := param.userID,
          userName := param.userName, userPhone := param.userPhone,
          merchantID := param.merchantID, merchantName := "测试商家",
          totalAmount := param.totalAmount, status := "待接单",
          address := param.address,
          expectDeliveryTime := param.expectDeliveryTime, remark := "" }
      let items := param.items.map (fun it =>
        ({ itemID := 0, orderID := 0, productID := it.productID,
           productName := it.productName, price := it.price,
           quantity := it.quantity, totalPrice := it.totalPrice } : OrderItem))
      if persistFails then
        let t := restoreParamLoop products₁ param.items
        ⟨.error (NewDBError "创建订单失败"), t.1, odb, t.2⟩
      else
        let t := repoCreateOrder odb order items generatedOrderNo
        ⟨.ok ⟨t.2.orderID, t.2.orderNo⟩, products₁, t.1, []⟩
  else ⟨.error (NewParamError "参数错误"), products, odb, []⟩

/-- orderService.UpdateOrderStatus (order_service.go lines 199-214): only the
parameter shape is validated (the status-whitelist block is commented out in
the source); the repo update is unconditional on the current status. -/
def svcUpdateOrderStatus (odb : OrderDB) (param : UpdateOrderStatusParam) :
    Except AppError OrderDB :=
  if updateOrderStatusParamValid param then
    repoUpdateOrderStatus odb param.orderID param.status param.remark
  else .error (NewParamError "参数错误")

/-- Observable outcome of one CancelOrder call. -/
structure CancelOrderOutcome where
  result : Except AppError Unit
  products : List Product
  orderDB : OrderDB
  restoreCalls : List (Int × Int)
deriving Repr, DecidableEq

/-- orderService.CancelOrder (order_service.go lines 411-443): load the
order, require status `待接单` or `已拒单`, restore the stock of every line
(best effort), then the ownership-checked repo cancel. -/
def CancelOrder (products : List Product) (odb : OrderDB)
    (param : CancelOrderParam) : CancelOrderOutcome :=
  if cancelOrderParamValid param then
    match repoGetOrderByID odb param.orderID with
    | .error e => ⟨.error e, products, odb, []⟩
    | .ok order =>
      if order.status != "待接单" && order.status != "已拒单" then
        ⟨.error (NewBizError "仅待接单/已拒单的订单可取消"), products, odb, []⟩
      else
        let items := repoGetOrderItems odb param.orderID
        let t := restoreItemsLoop products items
        match repoCancelOrder odb param.orderID param.userID param.reason with
        | .error e => ⟨.error e, t.1, odb, t.2⟩
        | .ok odb' => ⟨.ok (), t.1, odb', t.2⟩
  else ⟨.error (NewParamError "参数错误"), products, odb, []⟩

/-! Merchant and rider orchestration (src/unnamed/part_011 first variant,
src/unnamed/part_012, internal/rider/service/rider_service.go,
internal/rider/repo/rider_repo.go, src/unnamed/part_009).  Columns not read
by the modelled logic (phones, passwords, scores, money snapshots,
timestamps) are omitted. -/

structure Merchant where
  merchantID : Int
  name : String
  isOpen : Bool
  orderCount : Int
deriving Repr, DecidableEq

structure Rider where
  riderID : Int
  name : String
  status : String
  orderCount : Int
deriving Repr, DecidableEq

structure DeliveryOrder where
  id : Int
  orderID : Int
  orderNo : String
  riderID : Int
  riderName : String
  merchantID : Int
  merchantName : String
  address : String
  deliveryStatus : String
  acceptTime : String
  pickupTime : String
  completeTime : String
deriving Repr, DecidableEq

/-- The state visible to the merchant/rider accept flows: their own tables,
the delivery-assignment table, and (through the transparent RPC) the order
store. -/
structure FullState where
  merchants : List Merchant
  riders : List Rider
  deliveryOrders : List DeliveryOrder
  orderDB : OrderDB
deriving Repr, DecidableEq

/-- riderRepo.UpdateDeliveryOrder (rider_repo.go lines 113-139): a map update
`WHERE order_id = ?`; the columns written depend on the target sub-status;
`RowsAffected == 0` yields `配送订单不存在`.  Note there is no caller of
`CreateDeliveryOrder` anywhere in the repository, so this update is the only
write path to the delivery table. -/
def deliveryIDPred (orderID : Int) : DeliveryOrder → Bool :=
  fun d => d.orderID == orderID

/-- The columns written by riderRepo.UpdateDeliveryOrder for a given target
sub-status (the `switch` of rider_repo.go lines 117-126). -/
def deliveryUpd (riderID : Int) (status timeStr : String) :
    DeliveryOrder → DeliveryOrder :=
  fun d =>
    if status == "待取餐" then
      { d with deliveryStatus := status, acceptTime := timeStr,
               riderID := riderID, riderName := "" }
    else if status == "配送中" then
      { d with deliveryStatus := status, pickupTime := timeStr }
    else if status == "已完成" then
      { d with deliveryStatus := status, completeTime := timeStr }
    else
      { d with deliveryStatus := status }

def repoUpdateDeliveryOrder (dos : List DeliveryOrder) (orderID riderID : Int)
    (status timeStr : String) : Except AppError (List DeliveryOrder) :=
  if (updateRows (deliveryIDPred orderID) (deliveryUpd riderID status timeStr) dos).2
      == 0 then
    .error (NewBizError "配送订单不存在")
  else
    .ok (updateRows (deliveryIDPred orderID) (deliveryUpd riderID status timeStr) dos).1

structure MerchantAcceptParam where
  orderID : Int
  merchantID : Int
deriving Repr, DecidableEq

def merchantAcceptParamValid (p : MerchantAcceptParam) : Bool :=
  decide (0 < p.orderID) && decide (0 < p.merchantID)

def merchantIDPred (mid : Int) : Merchant → Bool :=
  fun m => m.merchantID == mid

/-- State after a successful merchant accept: the order store holds the
`已接单` update and the merchant's order counter is incremented. -/
def merchantAcceptSuccessState (st : FullState) (odb' : OrderDB) (mid : Int) :
    FullState :=
  { st with
    orderDB := odb'
    merchants := (updateRows (merchantIDPred mid)
      (fun x => { x with orderCount := x.orderCount + 1 }) st.merchants).1 }

/-- merchantService.AcceptOrder (src/unnamed/part_011 lines 274-309): require
the merchant to exist and be open, push `已接单` through the order service,
then bump the merchant's order counter best-effort. -/
def MerchantAcceptOrder (st : FullState) (param : MerchantAcceptParam) :
    FullState × Except AppError Unit :=
  if merchantAcceptParamValid param then
    match st.merchants.find? (merchantIDPred param.merchantID) with
    | none => (st, .error (NewBizError "商家不存在"))
    | some m =>
      if m.isOpen then
        match svcUpdateOrderStatus st.orderDB
            ⟨param.orderID, "已接单", "merchant_" ++ toString param.merchantID, ""⟩ with
        | .error _ => (st, .error (NewSystemError "接单失败,订单服务异常"))
        | .ok odb' =>
          (merchantAcceptSuccessState st odb' param.merchantID, .ok ())
      else (st, .error (NewBizError "商家已歇业，无法接单"))
  else (st, .error (NewParamError "参数错误"))

structure RiderAcceptParam where
  orderID : Int
  riderID : Int
deriving Repr, DecidableEq

def riderAcceptParamValid (p : RiderAcceptParam) : Bool :=
  decide (0 < p.orderID) && decide (0 < p.riderID)

def riderIDPred (rid : Int) : Rider → Bool :=
  fun r => r.riderID == rid

/-- State after a successful rider accept: delivery row updated, order store
holding the `待配送` update, rider counter incremented. -/
def riderAcceptSuccessState (st : FullState) (dos' : List DeliveryOrder)
    (odb' : OrderDB) (rid : Int) : FullState :=
  { st with
    deliveryOrders := dos'
    orderDB := odb'
    riders := (updateRows (riderIDPred rid)
      (fun x => { x with orderCount := x.orderCount + 1 }) st.riders).1 }

/-- riderService.AcceptOrder (rider_service.go lines 244-285): require the
rider to exist and be `在线`, update the delivery row to `待取餐` (with rider
id and accept time), push `待配送` through the order service, then bump the
rider's order counter best-effort.  When the order-service call fails the
already-updated delivery row is kept (no rollback). -/
def RiderAcceptOrder (st : FullState) (param : RiderAcceptParam) (now : String) :
    FullState × Except AppError Unit :=
  if riderAcceptParamValid param then
    match st.riders.find? (riderIDPred param.riderID) with
    | none => (st, .error (NewBizError "骑手不存在"))
    | some r =>
      if r.status != "在线" then (st, .error (NewBizError "骑手当前离线，无法接单"))
      else
        match repoUpdateDeliveryOrder st.deliveryOrders param.orderID
            param.riderID "待取餐" now with
        | .error e => (st, .error e)
        | .ok dos' =>
          match svcUpdateOrderStatus st.orderDB
              ⟨param.orderID, "待配送", "rider_" ++ toString param.riderID, ""⟩ with
          | .error _ =>
            ({ st with deliveryOrders := dos' },
              .error (NewSystemError "接单失败，订单服务异常"))
          | .ok odb' =>
            (riderAcceptSuccessState st dos' odb' param.riderID, .ok ())
  else (st, .error (NewParamError "参数错误"))

/-! Helper lemmas about the table operations. -/

theorem find?_updateRows {α : Type} (pred : α → Bool) (f : α → α)
    (hf : ∀ r, pred r = true → pred (f r) = true) :
    ∀ l : List α, ((updateRows pred f l).1).find? pred = (l.find? pred).map f
  | [] => rfl
  | r :: rs => by
    by_cases hp : pred r = true
    · simp [updateRows, hp, hf r hp]
    · have hp' : pred r = false := by simpa using hp
      simp [updateRows, hp', find?_updateRows pred f hf rs]

theorem updateRows_snd_eq_zero {α : Type} (pred : α → Bool) (f : α → α) :
    ∀ l : List α, (updateRows pred f l).2 = 0 ↔ l.find? pred = none
  | [] => by simp [updateRows]
  | r :: rs => by
    by_cases hp : pred r = true
    · simp [updateRows, hp]
    · have hp' : pred r = false := by simpa using hp
      simp [updateRows, hp', updateRows_snd_eq_zero pred f rs]

theorem mem_updateRows {α : Type} (pred : α → Bool) (f : α → α) :
    ∀ (l : List α) (x : α), x ∈ (updateRows pred f l).1 →
      (∃ r, r ∈ l ∧ pred r = true ∧ x = f r) ∨ (x ∈ l ∧ pred x = false)
  | [], x, h => by simp [updateRows] at h
  | r :: rs, x, h => by
    by_cases hp : pred r = true
    · simp only [updateRows, hp, if_true, List.mem_cons] at h
      rcases h with h | h
      · exact Or.inl ⟨r, List.mem_cons_self r rs, hp, h⟩
      · rcases mem_updateRows pred f rs x h with ⟨q, hq, hpq, hx⟩ | ⟨hx, hpx⟩
        · exact Or.inl ⟨q, List.mem_cons_of_mem r hq, hpq, hx⟩
        · exact Or.inr ⟨List.mem_cons_of_mem r hx, hpx⟩
    · have hp' : pred r = false := by simpa using hp
      simp only [updateRows, hp', Bool.false_eq_true, if_false,
        List.mem_cons] at h
      rcases h with h | h
      · exact Or.inr ⟨by simp [h], by rw [h]; exact hp'⟩
      · rcases mem_updateRows pred f rs x h with ⟨q, hq, hpq, hx⟩ | ⟨hx, hpx⟩
        · exact Or.inl ⟨q, List.mem_cons_of_mem r hq, hpq, hx⟩
        · exact Or.inr ⟨List.mem_cons_of_mem r hx, hpx⟩

theorem map_updateRows {α β : Type} (pred : α → Bool) (f : α → α) (g : α → β)
    (hg : ∀ r, pred r = true → g (f r) = g r) :
    ∀ l : List α, ((updateRows pred f l).1).map g = l.map g
  | [] => rfl
  | r :: rs => by
    by_cases hp : pred r = true
    · simp [updateRows, hp, hg r hp, map_updateRows pred f g hg rs]
    · have hp' : pred r = false := by simpa using hp
      simp [updateRows, hp', map_updateRows pred f g hg rs]

theorem productBeforeUpdate_stock (p : Product) :
    (productBeforeUpdate p).stock = p.stock := by
  unfold productBeforeUpdate; split <;> rfl

theorem productBeforeUpdate_productID (p : Product) :
    (productBeforeUpdate p).productID = p.productID := by
  unfold productBeforeUpdate; split <;> rfl

theorem productBeforeUpdate_isSoldOut (p : Product) :
    (productBeforeUpdate p).isSoldOut = decide (p.stock ≤ 0) := by
  by_cases h : p.stock ≤ 0 <;> simp [productBeforeUpdate, h]

theorem deductStock_ok_inv (db db' : List Product) (pid num : Int)
    (h : DeductStock db pid num = .ok db') :
    ∃ p, findProduct db pid = some p ∧ ¬ p.stock < num ∧
      db' = (updateRows (productIDPred pid)
        (fun _ => productBeforeUpdate { p with stock := p.stock - num }) db).1 := by
  unfold DeductStock at h
  split at h
  · exact Except.noConfusion h
  · rename_i p hp
    split at h
    · exact Except.noConfusion h
    · rename_i hlt
      exact ⟨p, hp, hlt, (Except.ok.inj h).symm⟩

theorem restoreStock_ok_inv (db db' : List Product) (pid num : Int)
    (h : RestoreStock db pid num = .ok db') :
    db' = (updateRows (productIDPred pid) (restoreUpd num) db).1 ∧
      findProduct db pid ≠ none := by
  unfold RestoreStock at h
  split at h
  · exact Except.noConfusion h
  · rename_i hz
    refine ⟨(Except.ok.inj h).symm, fun hn => hz ?_⟩
    have h0 : (updateRows (productIDPred pid) (restoreUpd num) db).2 = 0 :=
      (updateRows_snd_eq_zero (productIDPred pid) (restoreUpd num) db).mpr hn
    simpa using h0

theorem restoreStock_ok_of_found (db : List Product) (pid num : Int) (p : Product)
    (h : findProduct db pid = some p) :
    RestoreStock db pid num =
      .ok (updateRows (productIDPred pid) (restoreUpd num) db).1 := by
  have hz : ((updateRows (productIDPred pid) (restoreUpd num) db).2 == 0) = false := by
    have : ¬ (updateRows (productIDPred pid) (restoreUpd num) db).2 = 0 := by
      intro h0
      rw [updateRows_snd_eq_zero] at h0
      unfold findProduct at h
      rw [h0] at h
      exact Option.noConfusion h
    simpa using this
  unfold RestoreStock
  rw [hz]
  simp

theorem findProduct_after_deductUpdate (db : List Product) (pid num : Int)
    (p : Product) (hp : findProduct db pid = some p) :
    findProduct (updateRows (productIDPred pid)
      (fun _ => productBeforeUpdate { p with stock := p.stock - num }) db).1 pid =
      some (productBeforeUpdate { p with stock := p.stock - num }) := by
  have hpred : productIDPred pid p = true := List.find?_some hp
  have hf : ∀ r, productIDPred pid r = true →
      productIDPred pid (productBeforeUpdate { p with stock := p.stock - num })
        = true := by
    intro r hr
    simpa [productIDPred, productBeforeUpdate_productID] using hpred
  unfold findProduct at hp ⊢
  rw [find?_updateRows _ _ hf db, hp]
  rfl

theorem findProduct_after_restoreUpd (db : List Product) (pid num : Int) :
    findProduct (updateRows (productIDPred pid) (restoreUpd num) db).1 pid =
      (findProduct db pid).map (restoreUpd num) := by
  unfold findProduct
  exact find?_updateRows (productIDPred pid) (restoreUpd num) (fun r hr => hr) db

theorem statusUpd_orderID (s m : String) (o : Order) :
    (statusUpd s m o).orderID = o.orderID := by
  unfold statusUpd; split <;> rfl

theorem statusUpd_status (s m : String) (o : Order) :
    (statusUpd s m o).status = s := by
  unfold statusUpd; split <;> rfl

theorem orderIDPred_statusUpd (oid : Int) (s m : String) (o : Order) :
    orderIDPred oid (statusUpd s m o) = orderIDPred oid o := by
  simp [orderIDPred, statusUpd_orderID]

theorem restoreItemsLoop_calls :
    ∀ (items : List OrderItem) (db : List Product),
      (restoreItemsLoop db items).2 =
        items.map (fun it => (it.productID, it.quantity))
  | [], db => rfl
  | it :: rest, db => by
    simp only [restoreItemsLoop, List.map_cons]
    exact congrArg _ (restoreItemsLoop_calls rest _)

theorem findOrder_after_statusUpd (orders : List Order) (oid : Int)
    (s m : String) (o : Order) (ho : orders.find? (orderIDPred oid) = some o) :
    (updateRows (orderIDPred oid) (statusUpd s m) orders).1.find?
      (orderIDPred oid) = some (statusUpd s m o) := by
  rw [find?_updateRows (orderIDPred oid) (statusUpd s m)
    (fun r hr => by rw [orderIDPred_statusUpd]; exact hr) orders, ho]
  rfl

theorem svcUpdateOrderStatus_ok_of_found (odb : OrderDB)
    (param : UpdateOrderStatusParam) (o : Order)
    (hvalid : updateOrderStatusParamValid param = true)
    (ho : findOrder odb param.orderID = some o) :
    svcUpdateOrderStatus odb param =
      .ok { odb with orders := (updateRows (orderIDPred param.orderID)
        (statusUpd param.status param.remark) odb.orders).1 } := by
  have hne : ¬ (updateRows (orderIDPred param.orderID)
      (statusUpd param.status param.remark) odb.orders).2 = 0 := by
    intro h0
    rw [updateRows_snd_eq_zero] at h0
    unfold findOrder at ho
    rw [h0] at ho
    exact Option.noConfusion ho
  simp [svcUpdateOrderStatus, hvalid, repoUpdateOrderStatus, hne]

theorem deliveryUpd_orderID (rid : Int) (s t : String) (d : DeliveryOrder) :
    (deliveryUpd rid s t d).orderID = d.orderID := by
  unfold deliveryUpd
  repeat' split
  all_goals rfl

theorem deliveryIDPred_deliveryUpd (oid rid : Int) (s t : String)
    (d : DeliveryOrder) :
    deliveryIDPred oid (deliveryUpd rid s t d) = deliveryIDPred oid d := by
  simp [deliveryIDPred, deliveryUpd_orderID]

theorem find?_after_deliveryUpd (dos : List DeliveryOrder) (oid rid : Int)
    (s t : String) (d : DeliveryOrder)
    (hd : dos.find? (deliveryIDPred oid) = some d) :
    (updateRows (deliveryIDPred oid) (deliveryUpd rid s t) dos).1.find?
      (deliveryIDPred oid) = some (deliveryUpd rid s t d) := by
  rw [find?_updateRows (deliveryIDPred oid) (deliveryUpd rid s t)
    (fun r hr => by rw [deliveryIDPred_deliveryUpd]; exact hr) dos, hd]
  rfl

theorem repoUpdateDeliveryOrder_ok_of_found (dos : List DeliveryOrder)
    (oid rid : Int) (s t : String) (d : DeliveryOrder)
    (hd : dos.find? (deliveryIDPred oid) = some d) :
    repoUpdateDeliveryOrder dos oid rid s t =
      .ok (updateRows (deliveryIDPred oid) (deliveryUpd rid s t) dos).1 := by
  have hne : ¬ (updateRows (deliveryIDPred oid) (deliveryUpd rid s t) dos).2 = 0 := by
    intro h0
    rw [updateRows_snd_eq_zero] at h0
    rw [h0] at hd
    exact Option.noConfusion hd
  simp [repoUpdateDeliveryOrder, hne]

theorem deliveryUpd_awaitingPickup (rid : Int) (t : String) (d : DeliveryOrder) :
    deliveryUpd rid "待取餐" t d =
      { d with deliveryStatus := "待取餐", acceptTime := t,
               riderID := rid, riderName := "" } := by
  simp [deliveryUpd]

/-! Claim theorems. -/

/-- C3: `DeductStock(productID, quantity)` fails with the NotFound business
error `商品不存在` when no product row matches; fails with the OutOfStock
business error `库存不足` when the row's stock is below the requested
quantity, leaving the table untouched (the transaction rolls back, so the
caller-visible table is still `db`); and otherwise succeeds with the matched
row's stock decremented by exactly the quantity — all one atomic step. -/
theorem deductStock_contract (db : List Product) (pid num : Int) :
    (findProduct db pid = none →
      DeductStock db pid num = .error (NewBizError "商品不存在")) ∧
    (∀ p, findProduct db pid = some p → p.stock < num →
      DeductStock db pid num = .error (NewBizError "库存不足")) ∧
    (∀ p, findProduct db pid = some p → num ≤ p.stock →
      ∃ db', DeductStock db pid num = .ok db' ∧
        ∃ p', findProduct db' pid = some p' ∧ p'.stock = p.stock - num) := by
  refine ⟨fun h => by simp [DeductStock, h],
    fun p hp hlt => by simp [DeductStock, hp, hlt],
    fun p hp hle => ?_⟩
  have hnlt : ¬ p.stock < num := not_lt.mpr hle
  refine ⟨(updateRows (productIDPred pid)
      (fun _ => productBeforeUpdate { p with stock := p.stock - num }) db).1,
    by simp [DeductStock, hp, hnlt],
    productBeforeUpdate { p with stock := p.stock - num },
    findProduct_after_deductUpdate db pid num p hp, ?_⟩
  rw [productBeforeUpdate_stock]

/-- Witness for C3: on a one-row table with stock 5, deducting 3 succeeds and
leaves stock 2. -/
theorem deductStock_contract_witness :
    findProduct [⟨1, 1, "米饭", 5, false⟩] 1 = some ⟨1, 1, "米饭", 5, false⟩ ∧
    (3 : Int) ≤ (Product.mk 1 1 "米饭" 5 false).stock ∧
    ∃ db', DeductStock [⟨1, 1, "米饭", 5, false⟩] 1 3 = .ok db' ∧
      ∃ p', findProduct db' 1 = some p' ∧
        p'.stock = (Product.mk 1 1 "米饭" 5 false).stock - 3 :=
  ⟨by decide, by decide,
    (deductStock_contract [⟨1, 1, "米饭", 5, false⟩] 1 3).2.2
      ⟨1, 1, "米饭", 5, false⟩ (by decide) (by decide)⟩

/-- C4: from a table with no negative stock and a positive requested
quantity, both Inventory Ledger operations keep every stock count
non-negative: a deduction succeeds only when `stock ≥ quantity`, and a
restoration only increments. -/
theorem stock_nonneg_invariant (db db' : List Product) (pid num : Int)
    (hnum : 0 < num) (hdb : allStocksNonneg db)
    (h : DeductStock db pid num = .ok db' ∨ RestoreStock db pid num = .ok db') :
    allStocksNonneg db' := by
  rcases h with h | h
  · rcases deductStock_ok_inv db db' pid num h with ⟨q, hq, hlt, rfl⟩
    intro p hp
    rcases mem_updateRows _ _ db p hp with ⟨r, hr, hpr, rfl⟩ | ⟨hin, -⟩
    · rw [productBeforeUpdate_stock]
      show 0 ≤ q.stock - num
      have hle : num ≤ q.stock := not_lt.mp hlt
      omega
    · exact hdb p hin
  · rcases restoreStock_ok_inv db db' pid num h with ⟨rfl, -⟩
    intro p hp
    rcases mem_updateRows _ _ db p hp with ⟨r, hr, hpr, rfl⟩ | ⟨hin, -⟩
    · show 0 ≤ r.stock + num
      have := hdb r hr
      omega
    · exact hdb p hin

/-- Witness for C4: deducting 3 from stock 5 keeps the table non-negative. -/
theorem stock_nonneg_invariant_witness :
    (0 : Int) < 3 ∧ allStocksNonneg [⟨1, 1, "米饭", 5, false⟩] ∧
    allStocksNonneg [⟨1, 1, "米饭", 2, false⟩] :=
  ⟨by decide, by unfold allStocksNonneg; decide,
    stock_nonneg_invariant [⟨1, 1, "米饭", 5, false⟩] [⟨1, 1, "米饭", 2, false⟩]
      1 3 (by decide) (by unfold allStocksNonneg; decide) (Or.inl (by decide))⟩

/-- C6 counterexample: `RestoreStock` changes the stock count of a sold-out
product from 0 to 5 but leaves the sold-out flag `true`, so after this
stock-changing operation the flag does not equal `stock ≤ 0`. -/
theorem soldOut_flag_restore_counterexample :
    RestoreStock [⟨1, 1, "米饭", 0, true⟩] 1 5 = .ok [⟨1, 1, "米饭", 5, true⟩] ∧
    ¬ ((5 : Int) ≤ 0) := by
  exact ⟨by decide, by decide⟩

/-- C6 amended: only `DeductStock` recomputes the sold-out flag (its
struct-based `Save` runs the `BeforeUpdate` hook), so after a successful
deduction the updated row's flag equals `stock ≤ 0`; `RestoreStock` writes
only the stock column and leaves every sold-out flag unchanged, so the flag
can go stale there. -/
theorem soldOut_flag_recompute_amended (db db' : List Product) (pid num : Int) :
    (DeductStock db pid num = .ok db' →
      ∀ p ∈ db', p.productID = pid → p.isSoldOut = decide (p.stock ≤ 0)) ∧
    (RestoreStock db pid num = .ok db' →
      db'.map Product.isSoldOut = db.map Product.isSoldOut) := by
  constructor
  · intro h p hmem hpid
    rcases deductStock_ok_inv db db' pid num h with ⟨q, hq, hlt, rfl⟩
    rcases mem_updateRows _ _ db p hmem with ⟨r, hr, hpr, rfl⟩ | ⟨hin, hpred⟩
    · simp [productBeforeUpdate_isSoldOut, productBeforeUpdate_stock]
    · simp [productIDPred, hpid] at hpred
  · intro h
    rcases restoreStock_ok_inv db db' pid num h with ⟨rfl, -⟩
    exact map_updateRows (productIDPred pid) (restoreUpd num) Product.isSoldOut
      (fun r _ => rfl) db

/-- Witness for the amended C6: deducting to stock 0 sets the flag, restoring
5 keeps every flag unchanged. -/
theorem soldOut_flag_recompute_amended_witness :
    (∀ p ∈ ([⟨1, 1, "米饭", 0, true⟩] : List Product),
      p.productID = 1 → p.isSoldOut = decide (p.stock ≤ 0)) ∧
    ([⟨1, 1, "米饭", 5, true⟩] : List Product).map Product.isSoldOut =
      ([⟨1, 1, "米饭", 0, true⟩] : List Product).map Product.isSoldOut :=
  ⟨(soldOut_flag_recompute_amended [⟨1, 1, "米饭", 5, false⟩]
      [⟨1, 1, "米饭", 0, true⟩] 1 5).1 (by decide),
   (soldOut_flag_recompute_amended [⟨1, 1, "米饭", 0, true⟩]
      [⟨1, 1, "米饭", 5, true⟩] 1 5).2 (by decide)⟩

/-- C7: whenever `DeductStock(p, n)` succeeds, the immediately following
`RestoreStock(p, n)` succeeds and the product's stock count is back at its
pre-deduction value. -/
theorem deduct_restore_roundtrip (db db₁ : List Product) (pid num : Int)
    (h : DeductStock db pid num = .ok db₁) :
    ∃ db₂, RestoreStock db₁ pid num = .ok db₂ ∧
      (findProduct db₂ pid).map Product.stock =
        (findProduct db pid).map Product.stock := by
  rcases deductStock_ok_inv db db₁ pid num h with ⟨p, hp, hlt, rfl⟩
  have h₁ := findProduct_after_deductUpdate db pid num p hp
  refine ⟨_, restoreStock_ok_of_found _ pid num _ h₁, ?_⟩
  rw [findProduct_after_restoreUpd, h₁, hp]
  simp [restoreUpd, productBeforeUpdate_stock]

/-- Witness for C7: deduct 3 from stock 5 and restore it. -/
theorem deduct_restore_roundtrip_witness :
    ∃ db₂, RestoreStock [⟨1, 1, "米饭", 2, false⟩] 1 3 = .ok db₂ ∧
      (findProduct db₂ 1).map Product.stock =
        (findProduct [⟨1, 1, "米饭", 5, false⟩] 1).map Product.stock :=
  deduct_restore_roundtrip [⟨1, 1, "米饭", 5, false⟩] [⟨1, 1, "米饭", 2, false⟩]
    1 3 (by decide)

/-- C2 counterexample: an order already `已完成` (Completed) is moved to
`已接单` (Accepted) by a plain UpdateOrderStatus call — the call succeeds and
overwrites the status, where the claim requires an
InvalidTransition/Conflict failure with the status unchanged. -/
theorem updateOrderStatus_transition_counterexample :
    svcUpdateOrderStatus
      ⟨[⟨1, "NO20260101", 7, "张三", "13800138000", 9, "测试商家", 50, "已完成",
          "北京市海淀区1号", "", ""⟩], [], 2, 1⟩
      ⟨1, "已接单", "merchant_9", ""⟩ =
    .ok ⟨[⟨1, "NO20260101", 7, "张三", "13800138000", 9, "测试商家", 50, "已接单",
          "北京市海淀区1号", "", ""⟩], [], 2, 1⟩ := by
  decide

/-- C2 amended: UpdateOrderStatus performs no transition validation at all
(the status-whitelist block is commented out and the repo update has no
status condition in its WHERE clause): for a shape-valid parameter it fails
with the `订单不存在` business error exactly when no order row matches the
id, and for an existing order it succeeds and overwrites the status with the
requested string, whatever the current status was. -/
theorem updateOrderStatus_amended (odb : OrderDB) (param : UpdateOrderStatusParam)
    (hvalid : updateOrderStatusParamValid param = true) :
    (findOrder odb param.orderID = none →
      svcUpdateOrderStatus odb param = .error (NewBizError "订单不存在")) ∧
    (∀ o, findOrder odb param.orderID = some o →
      ∃ odb', svcUpdateOrderStatus odb param = .ok odb' ∧
        findOrder odb' param.orderID =
          some (statusUpd param.status param.remark o) ∧
        (statusUpd param.status param.remark o).status = param.status) := by
  constructor
  · intro h
    have h0 : (updateRows (orderIDPred param.orderID)
        (statusUpd param.status param.remark) odb.orders).2 = 0 :=
      (updateRows_snd_eq_zero _ _ odb.orders).mpr h
    simp [svcUpdateOrderStatus, hvalid, repoUpdateOrderStatus, h0]
  · intro o ho
    have hne : ¬ (updateRows (orderIDPred param.orderID)
        (statusUpd param.status param.remark) odb.orders).2 = 0 := by
      intro h0
      rw [updateRows_snd_eq_zero] at h0
      unfold findOrder at ho
      rw [h0] at ho
      exact Option.noConfusion ho
    refine ⟨{ odb with orders := (updateRows (orderIDPred param.orderID)
        (statusUpd param.status param.remark) odb.orders).1 }, ?_, ?_,
      statusUpd_status param.status param.remark o⟩
    · simp [svcUpdateOrderStatus, hvalid, repoUpdateOrderStatus, hne]
    · show (updateRows (orderIDPred param.orderID)
        (statusUpd param.status param.remark) odb.orders).1.find?
          (orderIDPred param.orderID) = _
      rw [find?_updateRows (orderIDPred param.orderID)
        (statusUpd param.status param.remark)
        (fun r hr => by rw [orderIDPred_statusUpd]; exact hr) odb.orders]
      unfold findOrder at ho
      rw [ho]
      rfl

/-- Witness for the amended C2: the `已完成 → 已接单` overwrite from the
counterexample state, via the amended theorem. -/
theorem updateOrderStatus_amended_witness :
    ∃ odb', svcUpdateOrderStatus
        ⟨[⟨1, "NO1", 7, "张三", "13800138000", 9, "测试商家", 50, "已完成",
            "北京市海淀区1号", "", ""⟩], [], 2, 1⟩
        ⟨1, "已接单", "merchant_9", ""⟩ = .ok odb' ∧
      findOrder odb' 1 = some (statusUpd "已接单" ""
        ⟨1, "NO1", 7, "张三", "13800138000", 9, "测试商家", 50, "已完成",
          "北京市海淀区1号", "", ""⟩) ∧
      (statusUpd "已接单" ""
        ⟨1, "NO1", 7, "张三", "13800138000", 9, "测试商家", 50, "已完成",
          "北京市海淀区1号", "", ""⟩).status = "已接单" :=
  (updateOrderStatus_amended
    ⟨[⟨1, "NO1", 7, "张三", "13800138000", 9, "测试商家", 50, "已完成",
        "北京市海淀区1号", "", ""⟩], [], 2, 1⟩
    ⟨1, "已接单", "merchant_9", ""⟩ (by decide)).2
    ⟨1, "NO1", 7, "张三", "13800138000", 9, "测试商家", 50, "已完成",
      "北京市海淀区1号", "", ""⟩ (by decide)

/-- C1 counterexample (the §8 scenario of the spec): product 1 has stock 5,
product 2 has stock 2; an order asks for 3 of product 1 and 10 of product 2.
The second deduction fails, the call returns the wrapped business error and
creates no order — but no RestoreStock call is issued and product 1's stock
is left at 2 instead of being restored to 5. -/
theorem createOrder_no_compensation_counterexample :
    CreateOrder [⟨1, 1, "宫保鸡丁", 5, false⟩, ⟨2, 1, "鱼香肉丝", 2, false⟩]
      ⟨[], [], 1, 1⟩
      ⟨7, "张三", "13800138000", 9,
        [⟨1, "宫保鸡丁", 10, 3, 30⟩, ⟨2, "鱼香肉丝", 2, 10, 20⟩], 50,
        "北京市海淀区中关村1号楼", ""⟩ "20260101ABC" false =
    ⟨.error (NewBizError "商品库存不足或不存在：鱼香肉丝"),
      [⟨1, 1, "宫保鸡丁", 2, false⟩, ⟨2, 1, "鱼香肉丝", 2, false⟩],
      ⟨[], [], 1, 1⟩, []⟩ := by
  decide

/-- C1 amended: when a deduction fails mid-loop on a shape-valid request,
CreateOrder returns the failure wrapped as the `商品库存不足或不存在：…`
business error and creates no order record, but issues no RestoreStock call:
the lines deducted before the failing one keep their deducted stock.  (The
compensation loop exists only on the order-persistence-failure path.) -/
theorem createOrder_deduct_failure_amended (products : List Product)
    (odb : OrderDB) (param : CreateOrderParam) (genNo : String)
    (persistFails : Bool) (ps₁ : List Product) (failed : OrderItemParam)
    (hvalid : createOrderParamValid param = true)
    (hfail : deductLoop products param.items = (ps₁, some failed)) :
    CreateOrder products odb param genNo persistFails =
      ⟨.error (NewBizError ("商品库存不足或不存在：" ++ failed.productName)),
        ps₁, odb, []⟩ := by
  simp [CreateOrder, hvalid, hfail]

/-- Witness for the amended C1 (same scenario, persistence-failure flag set,
showing the deduct-failure path still never compensates). -/
theorem createOrder_deduct_failure_amended_witness :
    CreateOrder [⟨1, 1, "宫保鸡丁", 5, false⟩, ⟨2, 1, "鱼香肉丝", 2, false⟩]
      ⟨[], [], 1, 1⟩
      ⟨7, "张三", "13800138000", 9,
        [⟨1, "宫保鸡丁", 10, 3, 30⟩, ⟨2, "鱼香肉丝", 2, 10, 20⟩], 50,
        "北京市海淀区中关村1号楼", ""⟩ "20260101ABC" true =
      ⟨.error (NewBizError ("商品库存不足或不存在：" ++ "鱼香肉丝")),
        [⟨1, 1, "宫保鸡丁", 2, false⟩, ⟨2, 1, "鱼香肉丝", 2, false⟩],
        ⟨[], [], 1, 1⟩, []⟩ :=
  createOrder_deduct_failure_amended
    [⟨1, 1, "宫保鸡丁", 5, false⟩, ⟨2, 1, "鱼香肉丝", 2, false⟩]
    ⟨[], [], 1, 1⟩
    ⟨7, "张三", "13800138000", 9,
      [⟨1, "宫保鸡丁", 10, 3, 30⟩, ⟨2, "鱼香肉丝", 2, 10, 20⟩], 50,
      "北京市海淀区中关村1号楼", ""⟩ "20260101ABC" true
    [⟨1, 1, "宫保鸡丁", 2, false⟩, ⟨2, 1, "鱼香肉丝", 2, false⟩]
    ⟨2, "鱼香肉丝", 2, 10, 20⟩ (by decide) (by decide)

/-- C10: whenever CreateOrder succeeds, the single appended order row carries
the hardcoded merchant name `测试商家` (the source line has a TODO to fetch
the real name later), regardless of the requested merchant id. -/
theorem createOrder_merchantName_hardcoded (products : List Product)
    (odb : OrderDB) (param : CreateOrderParam) (genNo : String)
    (persistFails : Bool) (res : CreateOrderResult)
    (h : (CreateOrder products odb param genNo persistFails).result = .ok res) :
    ∃ o, (CreateOrder products odb param genNo persistFails).orderDB.orders
        = odb.orders ++ [o] ∧
      o.merchantName = "测试商家" ∧ o.merchantID = param.merchantID := by
  by_cases hv : createOrderParamValid param = true
  · rcases hd : deductLoop products param.items with ⟨ps₁, failed⟩
    cases failed with
    | some it =>
      simp [CreateOrder, hv, hd] at h
    | none =>
      by_cases hp : persistFails = true
      · simp [CreateOrder, hv, hd, hp] at h
      · have hp' : persistFails = false := by simpa using hp
        simp only [CreateOrder, hv, hd, hp', if_true, if_false, Bool.false_eq_true,
          repoCreateOrder] at h ⊢
        exact ⟨_, rfl, rfl, rfl⟩
  · simp [CreateOrder, hv] at h

/-- Witness for C10: a successful one-line order for merchant 9 is persisted
with merchant name `测试商家`. -/
theorem createOrder_merchantName_hardcoded_witness :
    ∃ o, (CreateOrder [⟨1, 1, "米饭", 5, false⟩] ⟨[], [], 1, 1⟩
        ⟨7, "张三", "13800138000", 9, [⟨1, "米饭", 15, 3, 45⟩], 45,
          "北京市海淀区中关村1号楼", ""⟩ "20260101ABC" false).orderDB.orders
      = ([] : List Order) ++ [o] ∧
      o.merchantName = "测试商家" ∧ o.merchantID = 9 :=
  createOrder_merchantName_hardcoded [⟨1, 1, "米饭", 5, false⟩] ⟨[], [], 1, 1⟩
    ⟨7, "张三", "13800138000", 9, [⟨1, "米饭", 15, 3, 45⟩], 45,
      "北京市海淀区中关村1号楼", ""⟩ "20260101ABC" false
    ⟨1, "20260101ABC"⟩ (by decide)

/-- C5: CancelOrder succeeds only when the order exists and its current
status is `待接单` (PendingAcceptance) or `已拒单` (Rejected) — any other
existing status yields the `仅待接单/已拒单的订单可取消` business error — and
on success exactly one RestoreStock call was issued per stored order line,
with that line's quantity, and every row matching the order and user now has
status `已取消` (Cancelled). -/
theorem cancelOrder_contract (products : List Product) (odb : OrderDB)
    (param : CancelOrderParam) (hvalid : cancelOrderParamValid param = true) :
    ((CancelOrder products odb param).result = .ok () →
      (∃ o, findOrder odb param.orderID = some o ∧
        (o.status = "待接单" ∨ o.status = "已拒单")) ∧
      (CancelOrder products odb param).restoreCalls =
        (repoGetOrderItems odb param.orderID).map
          (fun it => (it.productID, it.quantity)) ∧
      (∀ x ∈ (CancelOrder products odb param).orderDB.orders,
        x.orderID = param.orderID → x.userID = param.userID →
          x.status = "已取消")) ∧
    (∀ o, findOrder odb param.orderID = some o →
      o.status ≠ "待接单" → o.status ≠ "已拒单" →
      (CancelOrder products odb param).result =
        .error (NewBizError "仅待接单/已拒单的订单可取消")) := by
  rcases hfind : findOrder odb param.orderID with _ | o
  · constructor
    · intro h
      simp [CancelOrder, hvalid, repoGetOrderByID, hfind] at h
    · intro o ho
      exact absurd ho (by simp)
  · by_cases hstat : (o.status != "待接单" && o.status != "已拒单") = true
    · constructor
      · intro h
        simp [CancelOrder, hvalid, repoGetOrderByID, hfind, hstat] at h
      · intro o' ho' h1 h2
        simp [CancelOrder, hvalid, repoGetOrderByID, hfind, hstat]
    · have hstat' : (o.status != "待接单" && o.status != "已拒单") = false := by
        simpa using hstat
      have hin : o.status = "待接单" ∨ o.status = "已拒单" := by
        by_cases h1 : o.status = "待接单"
        · exact Or.inl h1
        · right
          have hb1 : (o.status != "待接单") = true := by simpa using h1
          rw [hb1, Bool.true_and] at hstat'
          simpa using hstat'
      by_cases hz : (updateRows (cancelPred param.orderID param.userID)
          (cancelUpd param.reason) odb.orders).2 = 0
      · constructor
        · intro h
          simp [CancelOrder, hvalid, repoGetOrderByID, hfind, hstat',
            repoCancelOrder, hz] at h
        · intro o' ho' h1 h2
          obtain rfl : o = o' := Option.some.inj ho'
          rcases hin with hi | hi
          · exact absurd hi h1
          · exact absurd hi h2
      · constructor
        · intro h
          refine ⟨⟨o, rfl, hin⟩, ?_, ?_⟩
          · simp [CancelOrder, hvalid, repoGetOrderByID, hfind, hstat',
              repoCancelOrder, hz, restoreItemsLoop_calls]
          · intro x hx hx1 hx2
            have hx' : x ∈ (updateRows (cancelPred param.orderID param.userID)
                (cancelUpd param.reason) odb.orders).1 := by
              simpa [CancelOrder, hvalid, repoGetOrderByID, hfind, hstat',
                repoCancelOrder, hz] using hx
            rcases mem_updateRows _ _ odb.orders x hx'
              with ⟨r, hr, hpr, rfl⟩ | ⟨hxin, hpred⟩
            · rfl
            · simp [cancelPred, hx1, hx2] at hpred
        · intro o' ho' h1 h2
          obtain rfl : o = o' := Option.some.inj ho'
          rcases hin with hi | hi
          · exact absurd hi h1
          · exact absurd hi h2

/-- Witness for C5: cancelling a `待接单` order with one line (3 of product
2) restores exactly that line once and cancels the row. -/
theorem cancelOrder_contract_witness :
    (∃ o, findOrder
        ⟨[⟨1, "NO1", 7, "张三", "13800138000", 9, "测试商家", 45, "待接单",
            "北京市海淀区1号", "", ""⟩],
          [⟨1, 1, 2, "米饭", 15, 3, 45⟩], 2, 2⟩ 1 = some o ∧
      (o.status = "待接单" ∨ o.status = "已拒单")) ∧
    (CancelOrder [⟨2, 1, "米饭", 0, true⟩]
        ⟨[⟨1, "NO1", 7, "张三", "13800138000", 9, "测试商家", 45, "待接单",
            "北京市海淀区1号", "", ""⟩],
          [⟨1, 1, 2, "米饭", 15, 3, 45⟩], 2, 2⟩
        ⟨1, 7, "不想要了"⟩).restoreCalls =
      (repoGetOrderItems
        ⟨[⟨1, "NO1", 7, "张三", "13800138000", 9, "测试商家", 45, "待接单",
            "北京市海淀区1号", "", ""⟩],
          [⟨1, 1, 2, "米饭", 15, 3, 45⟩], 2, 2⟩ 1).map
        (fun it => (it.productID, it.quantity)) ∧
    (∀ x ∈ (CancelOrder [⟨2, 1, "米饭", 0, true⟩]
        ⟨[⟨1, "NO1", 7, "张三", "13800138000", 9, "测试商家", 45, "待接单",
            "北京市海淀区1号", "", ""⟩],
          [⟨1, 1, 2, "米饭", 15, 3, 45⟩], 2, 2⟩
        ⟨1, 7, "不想要了"⟩).orderDB.orders,
      x.orderID = 1 → x.userID = 7 → x.status = "已取消") :=
  (cancelOrder_contract [⟨2, 1, "米饭", 0, true⟩]
    ⟨[⟨1, "NO1", 7, "张三", "13800138000", 9, "测试商家", 45, "待接单",
        "北京市海淀区1号", "", ""⟩],
      [⟨1, 1, 2, "米饭", 15, 3, 45⟩], 2, 2⟩
    ⟨1, 7, "不想要了"⟩ (by decide)).1 (by decide)

/-- C9: calling CancelOrder on an existing cancellable order with a userID
that does not own it returns the `订单不存在或无权限取消` business error and
leaves the order store unchanged — yet by then one RestoreStock call per
line has already been issued and the stock increments stay applied: the
cancellation is not atomic with respect to the ownership check. -/
theorem cancelOrder_wrong_user_not_atomic (products : List Product)
    (odb : OrderDB) (param : CancelOrderParam) (o : Order)
    (hvalid : cancelOrderParamValid param = true)
    (hord : findOrder odb param.orderID = some o)
    (hstat : o.status = "待接单" ∨ o.status = "已拒单")
    (howner : ∀ x ∈ odb.orders, x.orderID = param.orderID →
      ¬ x.userID = param.userID) :
    CancelOrder products odb param =
      ⟨.error (NewBizError "订单不存在或无权限取消"),
        (restoreItemsLoop products (repoGetOrderItems odb param.orderID)).1,
        odb,
        (repoGetOrderItems odb param.orderID).map
          (fun it => (it.productID, it.quantity))⟩ := by
  have hbad : (o.status != "待接单" && o.status != "已拒单") = false := by
    rcases hstat with h | h <;> simp [h]
  have hz : (updateRows (cancelPred param.orderID param.userID)
      (cancelUpd param.reason) odb.orders).2 = 0 := by
    rw [updateRows_snd_eq_zero, List.find?_eq_none]
    intro x hx hpred
    simp only [cancelPred, Bool.and_eq_true, beq_iff_eq] at hpred
    exact howner x hx hpred.1 hpred.2
  simp [CancelOrder, hvalid, repoGetOrderByID, hord, hbad, repoCancelOrder, hz,
    restoreItemsLoop_calls]

/-- Witness for C9: user 8 tries to cancel user 7's `待接单` order; the call
fails, the order store is untouched, but product 2's stock was already
incremented by the line quantity 3. -/
theorem cancelOrder_wrong_user_not_atomic_witness :
    CancelOrder [⟨2, 1, "米饭", 0, true⟩]
      ⟨[⟨1, "NO1", 7, "张三", "13800138000", 9, "测试商家", 45, "待接单",
          "北京市海淀区1号", "", ""⟩],
        [⟨1, 1, 2, "米饭", 15, 3, 45⟩], 2, 2⟩
      ⟨1, 8, "不想要了"⟩ =
    ⟨.error (NewBizError "订单不存在或无权限取消"),
      [⟨2, 1, "米饭", 3, true⟩],
      ⟨[⟨1, "NO1", 7, "张三", "13800138000", 9, "测试商家", 45, "待接单",
          "北京市海淀区1号", "", ""⟩],
        [⟨1, 1, 2, "米饭", 15, 3, 45⟩], 2, 2⟩,
      [(2, 3)]⟩ :=
  cancelOrder_wrong_user_not_atomic [⟨2, 1, "米饭", 0, true⟩]
    ⟨[⟨1, "NO1", 7, "张三", "13800138000", 9, "测试商家", 45, "待接单",
        "北京市海淀区1号", "", ""⟩],
      [⟨1, 1, 2, "米饭", 15, 3, 45⟩], 2, 2⟩
    ⟨1, 8, "不想要了"⟩
    ⟨1, "NO1", 7, "张三", "13800138000", 9, "测试商家", 45, "待接单",
      "北京市海淀区1号", "", ""⟩
    (by decide) (by decide) (Or.inl (by decide)) (by decide)

/-- C8 counterexample: order 1 is `待接单`, merchant 1 is open, rider 1 is
`在线`, and — as everywhere in this repository, whose code never calls
`CreateDeliveryOrder` — no DeliveryAssignment row exists.  The merchant
accept succeeds and the order becomes `已接单`, but the rider accept fails
with `配送订单不存在`: the order status stays `已接单` instead of becoming
`待配送`, and no DeliveryAssignment row with sub-status `待取餐` exists. -/
theorem accept_flow_counterexample :
    MerchantAcceptOrder
      ⟨[⟨1, "好味商家", true, 0⟩], [⟨1, "骑手一", "在线", 0⟩], [],
        ⟨[⟨1, "NO1", 7, "张三", "13800138000", 1, "测试商家", 45, "待接单",
            "北京市海淀区1号", "", ""⟩], [], 2, 1⟩⟩ ⟨1, 1⟩ =
      (⟨[⟨1, "好味商家", true, 1⟩], [⟨1, "骑手一", "在线", 0⟩], [],
        ⟨[⟨1, "NO1", 7, "张三", "13800138000", 1, "测试商家", 45, "已接单",
            "北京市海淀区1号", "", ""⟩], [], 2, 1⟩⟩, .ok ()) ∧
    RiderAcceptOrder
      ⟨[⟨1, "好味商家", true, 1⟩], [⟨1, "骑手一", "在线", 0⟩], [],
        ⟨[⟨1, "NO1", 7, "张三", "13800138000", 1, "测试商家", 45, "已接单",
            "北京市海淀区1号", "", ""⟩], [], 2, 1⟩⟩ ⟨1, 1⟩
      "2026-01-01 12:00:00" =
      (⟨[⟨1, "好味商家", true, 1⟩], [⟨1, "骑手一", "在线", 0⟩], [],
        ⟨[⟨1, "NO1", 7, "张三", "13800138000", 1, "测试商家", 45, "已接单",
            "北京市海淀区1号", "", ""⟩], [], 2, 1⟩⟩,
       .error (NewBizError "配送订单不存在")) := by
  constructor
  · decide
  · decide

/-- C8 amended: starting from an existing order, an open merchant, an online
rider, and — precondition the code relies on but never establishes, since
`CreateDeliveryOrder` has no caller — an already-existing DeliveryAssignment
row for the order: the merchant accept succeeds (order status becomes
`已接单`), the subsequent rider accept succeeds, the order status becomes
`待配送`, and the delivery row now has sub-status `待取餐`, the rider id
assigned, the rider-name snapshot cleared, and the accept timestamp set. -/
theorem accept_flow_amended (st : FullState) (oid mid rid : Int) (now : String)
    (m : Merchant) (r : Rider) (o : Order) (d : DeliveryOrder)
    (hoid : 0 < oid) (hmid : 0 < mid) (hrid : 0 < rid)
    (hm : st.merchants.find? (merchantIDPred mid) = some m)
    (hopen : m.isOpen = true)
    (hr : st.riders.find? (riderIDPred rid) = some r)
    (honline : r.status = "在线")
    (ho : findOrder st.orderDB oid = some o)
    (hd : st.deliveryOrders.find? (deliveryIDPred oid) = some d) :
    (MerchantAcceptOrder st ⟨oid, mid⟩).2 = .ok () ∧
    (RiderAcceptOrder (MerchantAcceptOrder st ⟨oid, mid⟩).1 ⟨oid, rid⟩ now).2
      = .ok () ∧
    findOrder ((RiderAcceptOrder (MerchantAcceptOrder st ⟨oid, mid⟩).1
        ⟨oid, rid⟩ now).1).orderDB oid =
      some (statusUpd "待配送" "" (statusUpd "已接单" "" o)) ∧
    ((RiderAcceptOrder (MerchantAcceptOrder st ⟨oid, mid⟩).1
        ⟨oid, rid⟩ now).1).deliveryOrders.find? (deliveryIDPred oid) =
      some { d with deliveryStatus := "待取餐", acceptTime := now,
                    riderID := rid, riderName := "" } ∧
    (statusUpd "待配送" "" (statusUpd "已接单" "" o)).status = "待配送" := by
  have hvm : merchantAcceptParamValid ⟨oid, mid⟩ = true := by
    simp [merchantAcceptParamValid, hoid, hmid]
  have hvr : riderAcceptParamValid ⟨oid, rid⟩ = true := by
    simp [riderAcceptParamValid, hoid, hrid]
  have hvs₁ : updateOrderStatusParamValid
      ⟨oid, "已接单", "merchant_" ++ toString mid, ""⟩ = true := by
    unfold updateOrderStatusParamValid
    simp only [Bool.and_eq_true, decide_eq_true_eq]
    refine ⟨⟨hoid, by decide⟩, ?_⟩
    rw [String.length_append]
    have h9 : "merchant_".length = 9 := by decide
    omega
  have hvs₂ : updateOrderStatusParamValid
      ⟨oid, "待配送", "rider_" ++ toString rid, ""⟩ = true := by
    unfold updateOrderStatusParamValid
    simp only [Bool.and_eq_true, decide_eq_true_eq]
    refine ⟨⟨hoid, by decide⟩, ?_⟩
    rw [String.length_append]
    have h6 : "rider_".length = 6 := by decide
    omega
  have hsvc₁ := svcUpdateOrderStatus_ok_of_found st.orderDB
    ⟨oid, "已接单", "merchant_" ++ toString mid, ""⟩ o hvs₁ ho
  have hA : MerchantAcceptOrder st ⟨oid, mid⟩ =
      (merchantAcceptSuccessState st
        { st.orderDB with orders := (updateRows (orderIDPred oid)
            (statusUpd "已接单" "") st.orderDB.orders).1 } mid, .ok ()) := by
    simp [MerchantAcceptOrder, hvm, hm, hopen, hsvc₁]
  have ho₁ : findOrder (merchantAcceptSuccessState st
      { st.orderDB with orders := (updateRows (orderIDPred oid)
          (statusUpd "已接单" "") st.orderDB.orders).1 } mid).orderDB oid =
      some (statusUpd "已接单" "" o) :=
    findOrder_after_statusUpd st.orderDB.orders oid "已接单" "" o ho
  have hrepoD := repoUpdateDeliveryOrder_ok_of_found st.deliveryOrders oid rid
    "待取餐" now d hd
  have hsvc₂ : svcUpdateOrderStatus
      { orders := (updateRows (orderIDPred oid) (statusUpd "已接单" "")
          st.orderDB.orders).1,
        orderItems := st.orderDB.orderItems,
        nextOrderID := st.orderDB.nextOrderID,
        nextItemID := st.orderDB.nextItemID }
      ⟨oid, "待配送", "rider_" ++ toString rid, ""⟩ =
      .ok
        { orders := (updateRows (orderIDPred oid) (statusUpd "待配送" "")
            (updateRows (orderIDPred oid) (statusUpd "已接单" "")
              st.orderDB.orders).1).1,
          orderItems := st.orderDB.orderItems,
          nextOrderID := st.orderDB.nextOrderID,
          nextItemID := st.orderDB.nextItemID } :=
    svcUpdateOrderStatus_ok_of_found
      (merchantAcceptSuccessState st
        { st.orderDB with orders := (updateRows (orderIDPred oid)
            (statusUpd "已接单" "") st.orderDB.orders).1 } mid).orderDB
      ⟨oid, "待配送", "rider_" ++ toString rid, ""⟩ (statusUpd "已接单" "" o)
      hvs₂ ho₁
  have hbne : (r.status != "在线") = false := by simp [honline]
  have hB : RiderAcceptOrder (merchantAcceptSuccessState st
      { st.orderDB with orders := (updateRows (orderIDPred oid)
          (statusUpd "已接单" "") st.orderDB.orders).1 } mid) ⟨oid, rid⟩ now =
      (riderAcceptSuccessState
        (merchantAcceptSuccessState st
          { st.orderDB with orders := (updateRows (orderIDPred oid)
              (statusUpd "已接单" "") st.orderDB.orders).1 } mid)
        (updateRows (deliveryIDPred oid) (deliveryUpd rid "待取餐" now)
          st.deliveryOrders).1
        { (merchantAcceptSuccessState st
            { st.orderDB with orders := (updateRows (orderIDPred oid)
                (statusUpd "已接单" "") st.orderDB.orders).1 } mid).orderDB with
          orders := (updateRows (orderIDPred oid) (statusUpd "待配送" "")
            (merchantAcceptSuccessState st
              { st.orderDB with orders := (updateRows (orderIDPred oid)
                  (statusUpd "已接单" "") st.orderDB.orders).1 } mid).orderDB.orders).1 }
        rid, .ok ()) := by
    simp [RiderAcceptOrder, merchantAcceptSuccessState, hvr, hr, hbne,
      hrepoD, hsvc₂]
  rw [hA]
  refine ⟨rfl, ?_, ?_, ?_, statusUpd_status _ _ _⟩
  · rw [hB]
  · rw [hB]
    exact findOrder_after_statusUpd _ oid "待配送" "" _ ho₁
  · rw [hB]
    exact (find?_after_deliveryUpd st.deliveryOrders oid rid "待取餐" now d
      hd).trans (by rw [deliveryUpd_awaitingPickup])

/-- Witness for the amended C8: with a pre-existing delivery row the merchant
accept and rider accept drive the order to `待配送` with the delivery row at
`待取餐`. -/
theorem accept_flow_amended_witness :
    (MerchantAcceptOrder
      ⟨[⟨1, "好味商家", true, 0⟩], [⟨1, "骑手一", "在线", 0⟩],
        [⟨1, 1, "NO1", 0, "", 1, "好味商家", "北京市海淀区1号", "待取餐",
            "", "", ""⟩],
        ⟨[⟨1, "NO1", 7, "张三", "13800138000", 1, "测试商家", 45, "待接单",
            "北京市海淀区1号", "", ""⟩], [], 2, 1⟩⟩ ⟨1, 1⟩).2 = .ok () ∧
    (RiderAcceptOrder (MerchantAcceptOrder
      ⟨[⟨1, "好味商家", true, 0⟩], [⟨1, "骑手一", "在线", 0⟩],
        [⟨1, 1, "NO1", 0, "", 1, "好味商家", "北京市海淀区1号", "待取餐",
            "", "", ""⟩],
        ⟨[⟨1, "NO1", 7, "张三", "13800138000", 1, "测试商家", 45, "待接单",
            "北京市海淀区1号", "", ""⟩], [], 2, 1⟩⟩ ⟨1, 1⟩).1 ⟨1, 1⟩
      "2026-01-01 12:00:00").2 = .ok () ∧
    findOrder ((RiderAcceptOrder (MerchantAcceptOrder
      ⟨[⟨1, "好味商家", true, 0⟩], [⟨1, "骑手一", "在线", 0⟩],
        [⟨1, 1, "NO1", 0, "", 1, "好味商家", "北京市海淀区1号", "待取餐",
            "", "", ""⟩],
        ⟨[⟨1, "NO1", 7, "张三", "13800138000", 1, "测试商家", 45, "待接单",
            "北京市海淀区1号", "", ""⟩], [], 2, 1⟩⟩ ⟨1, 1⟩).1 ⟨1, 1⟩
      "2026-01-01 12:00:00").1).orderDB 1 =
      some (statusUpd "待配送" "" (statusUpd "已接单" ""
        ⟨1, "NO1", 7, "张三", "13800138000", 1, "测试商家", 45, "待接单",
          "北京市海淀区1号", "", ""⟩)) ∧
    ((RiderAcceptOrder (MerchantAcceptOrder
      ⟨[⟨1, "好味商家", true, 0⟩], [⟨1, "骑手一", "在线", 0⟩],
        [⟨1, 1, "NO1", 0, "", 1, "好味商家", "北京市海淀区1号", "待取餐",
            "", "", ""⟩],
        ⟨[⟨1, "NO1", 7, "张三", "13800138000", 1, "测试商家", 45, "待接单",
            "北京市海淀区1号", "", ""⟩], [], 2, 1⟩⟩ ⟨1, 1⟩).1 ⟨1, 1⟩
      "2026-01-01 12:00:00").1).deliveryOrders.find? (deliveryIDPred 1) =
      some { (⟨1, 1, "NO1", 0, "", 1, "好味商家", "北京市海淀区1号", "待取餐",
          "", "", ""⟩ : DeliveryOrder) with
        deliveryStatus := "待取餐", acceptTime := "2026-01-01 12:00:00",
        riderID := 1, riderName := "" } ∧
    (statusUpd "待配送" "" (statusUpd "已接单" ""
      ⟨1, "NO1", 7, "张三", "13800138000", 1, "测试商家", 45, "待接单",
        "北京市海淀区1号", "", ""⟩)).status = "待配送" :=
  accept_flow_amended
    ⟨[⟨1, "好味商家", true, 0⟩], [⟨1, "骑手一", "在线", 0⟩],
      [⟨1, 1, "NO1", 0, "", 1, "好味商家", "北京市海淀区1号", "待取餐",
          "", "", ""⟩],
      ⟨[⟨1, "NO1", 7, "张三", "13800138000", 1, "测试商家", 45, "待接单",
          "北京市海淀区1号", "", ""⟩], [], 2, 1⟩⟩
    1 1 1 "2026-01-01 12:00:00"
    ⟨1, "好味商家", true, 0⟩ ⟨1, "骑手一", "在线", 0⟩
    ⟨1, "NO1", 7, "张三", "13800138000", 1, "测试商家", 45, "待接单",
      "北京市海淀区1号", "", ""⟩
    ⟨1, 1, "NO1", 0, "", 1, "好味商家", "北京市海淀区1号", "待取餐", "", "", ""⟩
    (by decide) (by decide) (by decide) (by decide) (by decide) (by decide)
    (by decide) (by decide) (by decide)

end Meituan
